import Mathlib

/-!
Shallow embedding of the DS1820 1-Wire digital thermometer driver
(DS1820.c / DS1820.h) and proofs about its decoding, encoding, error
handling and bus-effect behaviour.

The OneWire bus layer (the OW_* functions) is an external library, not part
of this repository; it is modelled abstractly by the structure OneWireBus:
the outcome of OW_ROMMatch (nonzero / OW_NO_DEV, collapsed to a Bool
"selection failed"), the CRC primitive OW_CRCCalculate, the stream of bytes
successive OW_ByteRead calls return, and the addresses returned by
OW_SearchFirst and successive OW_SearchNext calls.

C integer conventions used throughout: C int arithmetic is modelled on Int
(all intermediate values in this driver stay far below 2^31, so no
wrap-around occurs); C integer division truncates toward zero, which is
Int.tdiv; a C cast of an int to uint8_t is reduction mod 256, which is
Int.emod with modulus 256; a uint8_t is a Nat below 256; C truthiness
tests an integer against 0.  Side effects issued to the bus are recorded
as explicit OWEvent traces where a claim is about effects.
-/

namespace DS1820

/-- Constants from DS1820.h: the DS1820_State enumeration values, modelled
as the C integers they are. -/
def DS1820_OK : Int := 0

/-- DS1820.h: DS1820_ERROR = 1. -/
def DS1820_ERROR : Int := 1

/-- DS1820.h: DS1820_TEMP_ERROR = -10000, the sentinel returned by
DS1820_TemperatureGet on any failure. -/
def DS1820_TEMP_ERROR : Int := -10000

/-- DS1820.c: scratchpad length in bytes. -/
def SCRATCHPAD_LENGTH : Nat := 9

/-- DS1820.c: SCRATCHPAD_CRC_POS = SCRATCHPAD_LENGTH - 1 = 8. -/
def SCRATCHPAD_CRC_POS : Nat := 8

/-- DS1820.c: command byte for reading the scratchpad. -/
def SCRATCHPAD_READ : Nat := 0xBE

/-- DS1820.c: command byte for writing the scratchpad. -/
def SCRATCHPAD_WRITE : Nat := 0x4E

/-- Observable side effects issued to the OneWire bus layer. -/
inductive OWEvent where
  | weakPullUp
  | strongPullUp
  | reset
  | romMatch (addr : Nat)
  | byteWrite (b : Nat)
  | searchFirst (filter : Nat)
  | searchNext
  deriving DecidableEq, Repr

/-- Abstract model of the external OneWire bus layer (OW_* functions):
romMatchFails addr is true when OW_ROMMatch reports that device selection
for addr failed; crcCalc is OW_CRCCalculate; byteRead i is the byte the
(i+1)-st OW_ByteRead call of the current transaction returns; searchFirst f
is OW_SearchFirst f (0 means no device); searchNext k is the result of the
(k+1)-st OW_SearchNext call (0 means no more devices). -/
structure OneWireBus where
  romMatchFails : Nat → Bool
  crcCalc : Nat → Nat → Nat
  byteRead : Nat → Nat
  searchFirst : Nat → Nat
  searchNext : Nat → Nat

/-- DS1820.c, ScratchPadRead (lines 271-287): reads SCRATCHPAD_LENGTH = 9
bytes into the buffer, accumulating the CRC (initial accumulator 0) over
every byte except the one at SCRATCHPAD_CRC_POS = 8, and returns 1 when the
accumulated CRC differs from byte 8, else 0, together with the buffer. -/
def ScratchPadRead (crc : Nat → Nat → Nat) (read : Nat → Nat) : Nat × List Nat :=
  let buf := (List.range SCRATCHPAD_LENGTH).map read
  let c := (List.range SCRATCHPAD_LENGTH).foldl
    (fun acc i => if i ≠ SCRATCHPAD_CRC_POS then crc acc (read i) else acc) 0
  (if c ≠ buf.getD SCRATCHPAD_CRC_POS 0 then 1 else 0, buf)

/-- DS1820.c, DS1820_TemperatureGet lines 113-119: the temperature
computation performed on the scratchpad bytes after the CRC check passed.
iTemp = (iSPad[1] == 0) ? iSPad[0] * 500 : iSPad[0] * -500, then
iTemp += -250 + (1000 * (iSPad[7] - iSPad[6])) / iSPad[7] (uint8_t operands
promoted to int, C division truncating toward zero), and the returned value
is iTemp / 100.  Note: the C code has no guard for iSPad[7] = 0; there the
C division is undefined behaviour, while Int.tdiv by 0 yields 0 here. -/
def temperatureFromScratchpad (sp : List Nat) : Int :=
  let base : Int :=
    if sp.getD 1 0 = 0 then (sp.getD 0 0 : Int) * 500 else (sp.getD 0 0 : Int) * (-500)
  let t : Int :=
    base + (-250 + Int.tdiv (1000 * ((sp.getD 7 0 : Int) - (sp.getD 6 0 : Int)))
      (sp.getD 7 0 : Int))
  Int.tdiv t 100

/-- DS1820.c, DS1820_TemperatureGet (lines 99-120): weak pull-up, select the
device (return DS1820_TEMP_ERROR if OW_ROMMatch fails), read the scratchpad
(return DS1820_TEMP_ERROR if ScratchPadRead reports a CRC mismatch), then
decode the temperature from the scratchpad bytes. -/
def DS1820_TemperatureGet (bus : OneWireBus) (iAddress : Nat) : Int :=
  if bus.romMatchFails iAddress then DS1820_TEMP_ERROR
  else if (ScratchPadRead bus.crcCalc bus.byteRead).1 ≠ 0 then DS1820_TEMP_ERROR
  else temperatureFromScratchpad (ScratchPadRead bus.crcCalc bus.byteRead).2

/-- DS1820.c, DS1820_TemperatureAlarmSet lines 139/141: the degrees-to-byte
conversion.  (iHigh >= 0) ? (uint8_t) iHigh & 0x7F
: 0x80 | ((uint8_t) iHigh & 0x7F).  The uint8_t cast is mod 256. -/
def alarmEncode (d : Int) : Nat :=
  if 0 ≤ d then (Int.toNat (Int.emod d 256)) &&& 0x7F
  else 0x80 ||| ((Int.toNat (Int.emod d 256)) &&& 0x7F)

/-- DS1820.c, DS1820_TemperatureAlarmGet lines 169/172: the byte-to-degrees
conversion.  (b & 0x80) ? -((int) (b & 0x7F)) : (int) (b & 0x7F). -/
def alarmDecode (b : Nat) : Int :=
  if b &&& 0x80 ≠ 0 then -((b &&& 0x7F : Nat) : Int) else ((b &&& 0x7F : Nat) : Int)

/-- DS1820.c, DS1820_TemperatureAlarmSet (lines 130-146): weak pull-up,
select device (DS1820_ERROR on failure), encode both thresholds, then
ScratchPadWrite issues the write command followed by the two bytes.
The result is paired with the trace of bus effects. -/
def DS1820_TemperatureAlarmSet (bus : OneWireBus) (iAddress : Nat) (iHigh iLow : Int) :
    Int × List OWEvent :=
  if bus.romMatchFails iAddress then
    (DS1820_ERROR, [OWEvent.weakPullUp, OWEvent.romMatch iAddress])
  else
    (DS1820_OK, [OWEvent.weakPullUp, OWEvent.romMatch iAddress,
      OWEvent.byteWrite SCRATCHPAD_WRITE,
      OWEvent.byteWrite (alarmEncode iHigh), OWEvent.byteWrite (alarmEncode iLow)])

/-- DS1820.c, DS1820_TemperatureAlarmGet (lines 156-175): weak pull-up,
select device (DS1820_ERROR on failure), read scratchpad (DS1820_ERROR on
CRC mismatch), else decode bytes 3 and 4 into the two outputs.  The C
out-parameters are modelled by passing the caller's current values in and
returning the triple (result, final value of *iHigh, final value of *iLow);
on the error paths the code never assigns through the pointers, so the
incoming values are returned unchanged. -/
def DS1820_TemperatureAlarmGet (bus : OneWireBus) (iAddress : Nat) (iHigh iLow : Int) :
    Int × Int × Int :=
  if bus.romMatchFails iAddress then (DS1820_ERROR, iHigh, iLow)
  else if (ScratchPadRead bus.crcCalc bus.byteRead).1 ≠ 0 then (DS1820_ERROR, iHigh, iLow)
  else (DS1820_OK,
    alarmDecode ((ScratchPadRead bus.crcCalc bus.byteRead).2.getD 3 0),
    alarmDecode ((ScratchPadRead bus.crcCalc bus.byteRead).2.getD 4 0))

/-- DS1820.c, DS1820_TemperatureConvert (lines 74-89): weak pull-up, select
device (DS1820_ERROR when OW_ROMMatch reports no device), else issue the
convert command 0x44 and switch to strong pull-up.  The result is paired
with the trace of bus effects. -/
def DS1820_TemperatureConvert (bus : OneWireBus) (iAddress : Nat) : Int × List OWEvent :=
  if bus.romMatchFails iAddress then
    (DS1820_ERROR, [OWEvent.weakPullUp, OWEvent.romMatch iAddress])
  else
    (DS1820_OK, [OWEvent.weakPullUp, OWEvent.romMatch iAddress,
      OWEvent.byteWrite 0x44, OWEvent.strongPullUp])

/-- DS1820.c, DS1820_Search loop (lines 254-258): while the current address
is nonzero and fewer than iMaxDevices addresses were collected, store the
address and call OW_SearchNext.  fuel is the number of iterations still
allowed by the iCount < iMaxDevices bound; k counts the OW_SearchNext calls
already made.  Returns the collected addresses and the trace of search
events issued by the loop. -/
def searchLoop (next : Nat → Nat) (k : Nat) (addr : Nat) (fuel : Nat) :
    List Nat × List OWEvent :=
  match fuel with
  | 0 => ([], [])
  | f + 1 =>
    if addr = 0 then ([], [])
    else
      let rest := searchLoop next (k + 1) (next k) f
      (addr :: rest.1, OWEvent.searchNext :: rest.2)

/-- DS1820.c, DS1820_Search (lines 243-264): weak pull-up, OW_SearchFirst 0,
then the collection loop, then OW_Reset.  Returns (number of devices found,
the addresses written to the caller's array) paired with the trace of bus
effects.  iMaxDevices is a C int; the loop runs at most
max(iMaxDevices, 0) times. -/
def DS1820_Search (bus : OneWireBus) (iMaxDevices : Int) : (Int × List Nat) × List OWEvent :=
  let first := bus.searchFirst 0
  let found := searchLoop bus.searchNext 0 first iMaxDevices.toNat
  (((found.1.length : Int), found.1),
    OWEvent.weakPullUp :: OWEvent.searchFirst 0 :: (found.2 ++ [OWEvent.reset]))

/-- Concrete bus for witnesses: one device present, all CRC steps return 0,
and the scratchpad bytes are the sample vector from the DS1820 data sheet
discussion (negative reading, count-remain 0x0C, count-per-degree 0x10);
byte 8 is 0 so the constant-0 CRC accumulation matches it. -/
def busPresent : OneWireBus where
  romMatchFails := fun _ => false
  crcCalc := fun _ _ => 0
  byteRead := fun i => [0x91, 1, 0x4B, 0x46, 0x7F, 0xFF, 0x0C, 0x10, 0].getD i 0
  searchFirst := fun _ => 0
  searchNext := fun _ => 0

/-- Concrete bus for witnesses: device selection always fails. -/
def busAbsent : OneWireBus where
  romMatchFails := fun _ => true
  crcCalc := fun _ _ => 0
  byteRead := fun _ => 0
  searchFirst := fun _ => 0
  searchNext := fun _ => 0

/-- Concrete bus for witnesses: selection succeeds but the scratchpad CRC
byte (byte 8 = 1) differs from the accumulated CRC (0), so ScratchPadRead
reports a mismatch. -/
def busMismatch : OneWireBus where
  romMatchFails := fun _ => false
  crcCalc := fun _ _ => 0
  byteRead := fun i => if i = 8 then 1 else 0
  searchFirst := fun _ => 0
  searchNext := fun _ => 0

/-- Concrete bus: selection succeeds and every scratchpad byte is 0, so the
CRC check passes (accumulated 0 = byte 8) while the count-per-degree byte
iSPad[7] is 0 — the divisor of the correction term. -/
def busZero : OneWireBus where
  romMatchFails := fun _ => false
  crcCalc := fun _ _ => 0
  byteRead := fun _ => 0
  searchFirst := fun _ => 0
  searchNext := fun _ => 0

/-- The byte-to-degrees conversion always lands in [-127, 127], since it
only ever negates a value masked with 0x7F. -/
theorem alarmDecode_mem_range (b : Nat) : -127 ≤ alarmDecode b ∧ alarmDecode b ≤ 127 := by
  have hb : b &&& 0x7F ≤ 127 := Nat.and_le_right
  unfold alarmDecode
  split <;> omega

/-- Claim C1: for every scratchpad whose CRC check passes and whose byte 7
is nonzero, DS1820_TemperatureGet returns the two-stage fixed-point value:
base = byte0 * 500 if byte1 = 0 else byte0 * -500, plus the correction
-250 + (1000 * (byte7 - byte6)) / byte7 with truncating integer division,
the sum then divided by 100 truncating toward zero. -/
theorem temperatureGet_formula (bus : OneWireBus) (iAddress : Nat)
    (hsel : bus.romMatchFails iAddress = false)
    (hcrc : (ScratchPadRead bus.crcCalc bus.byteRead).1 = 0)
    (h7 : bus.byteRead 7 ≠ 0) :
    DS1820_TemperatureGet bus iAddress =
      Int.tdiv
        ((if bus.byteRead 1 = 0 then (bus.byteRead 0 : Int) * 500
          else (bus.byteRead 0 : Int) * (-500)) +
          (-250 + Int.tdiv (1000 * ((bus.byteRead 7 : Int) - (bus.byteRead 6 : Int)))
            (bus.byteRead 7 : Int))) 100 := by
  unfold DS1820_TemperatureGet
  rw [hsel, hcrc]
  simp only [Bool.false_eq_true, if_false, ne_eq, not_true_eq_false]
  rfl

/-- Witness for C1 at the concrete bus busPresent: selection succeeds, the
CRC check passes, byte 7 = 0x10 is nonzero, and the returned temperature is
tdiv (145 * -500 + (-250 + tdiv (1000 * (16 - 12)) 16)) 100 = -725. -/
theorem temperatureGet_formula_witness :
    busPresent.romMatchFails 0 = false ∧
    (ScratchPadRead busPresent.crcCalc busPresent.byteRead).1 = 0 ∧
    busPresent.byteRead 7 ≠ 0 ∧
    DS1820_TemperatureGet busPresent 0 = -725 := by
  refine ⟨rfl, by decide, by decide, ?_⟩
  rw [temperatureGet_formula busPresent 0 rfl (by decide) (by decide)]
  decide

/-- Claim C2 (code evaluation at the failing input): at an all-zero
scratchpad, the CRC check passes and the count-per-degree byte iSPad[7] is
0, yet DS1820_TemperatureGet does not report an error: the code reaches the
division by iSPad[7] = 0 — undefined behaviour in C, Int.tdiv by 0 yields 0
in this embedding — and returns -2, not DS1820_TEMP_ERROR. -/
theorem temperatureGet_zero_divisor_not_error :
    (ScratchPadRead busZero.crcCalc busZero.byteRead).1 = 0 ∧
    busZero.byteRead 7 = 0 ∧
    DS1820_TemperatureGet busZero 0 = -2 ∧
    DS1820_TemperatureGet busZero 0 ≠ DS1820_TEMP_ERROR := by decide

/-- Claim C3 (code evaluation at the failing input): the alarm round trip
fails at -1.  DS1820_TemperatureAlarmSet masks the two's-complement byte,
encoding -1 as 0xFF, while DS1820_TemperatureAlarmGet decodes 0xFF by
sign-magnitude to -127, so AlarmDecode (AlarmEncode (-1)) = -127, not -1. -/
theorem alarm_roundtrip_fails_at_minus_one :
    alarmEncode (-1) = 0xFF ∧ alarmDecode 0xFF = -127 ∧
    alarmDecode (alarmEncode (-1)) ≠ -1 := by decide

/-- Counterexample to claim C4 as stated: AlarmEncode (-1) is 0xFF, not the
claimed 0x81, and AlarmEncode (-127) is 0x81, not the claimed 0xFF, so the
claimed conjunction of the four boundary equalities is false. -/
theorem alarmEncode_boundary_counterexample :
    ¬ (alarmEncode 0 = 0x00 ∧ alarmEncode (-1) = 0x81 ∧
       alarmEncode 127 = 0x7F ∧ alarmEncode (-127) = 0xFF) := by decide

/-- Claim C4 as amended: the boundary values actually produced by the
conversion inside DS1820_TemperatureAlarmSet are AlarmEncode 0 = 0x00,
AlarmEncode (-1) = 0xFF, AlarmEncode 127 = 0x7F, AlarmEncode (-127) = 0x81
(for negative inputs the code masks the two's-complement byte, so the
values the claim gave for -1 and -127 are swapped). -/
theorem alarmEncode_boundary :
    alarmEncode 0 = 0x00 ∧ alarmEncode (-1) = 0xFF ∧
    alarmEncode 127 = 0x7F ∧ alarmEncode (-127) = 0x81 := by decide

/-- Claim C7: when device selection reports no device present,
DS1820_TemperatureConvert returns DS1820_ERROR and its bus-effect trace is
exactly the weak pull-up and the selection attempt: the start-conversion
command 0x44 is never written and strong pull-up is never set. -/
theorem temperatureConvert_absent_no_effects (bus : OneWireBus) (iAddress : Nat)
    (hsel : bus.romMatchFails iAddress = true) :
    DS1820_TemperatureConvert bus iAddress =
      (DS1820_ERROR, [OWEvent.weakPullUp, OWEvent.romMatch iAddress]) ∧
    OWEvent.byteWrite 0x44 ∉ (DS1820_TemperatureConvert bus iAddress).2 ∧
    OWEvent.strongPullUp ∉ (DS1820_TemperatureConvert bus iAddress).2 := by
  unfold DS1820_TemperatureConvert
  rw [hsel]
  simp

/-- Witness for C7 at the concrete bus busAbsent. -/
theorem temperatureConvert_absent_no_effects_witness :
    DS1820_TemperatureConvert busAbsent 3 =
      (DS1820_ERROR, [OWEvent.weakPullUp, OWEvent.romMatch 3]) ∧
    OWEvent.byteWrite 0x44 ∉ (DS1820_TemperatureConvert busAbsent 3).2 ∧
    OWEvent.strongPullUp ∉ (DS1820_TemperatureConvert busAbsent 3).2 :=
  temperatureConvert_absent_no_effects busAbsent 3 rfl

/-- Counterexample to claim C8 as stated: on a concrete bus,
DS1820_Search with iMaxDevices = 0 still invokes the search primitive
OW_SearchFirst 0 — the invocation appears in the trace before the
terminating bus reset — contradicting "no search-primitive invocations
occur before the terminating bus reset". -/
theorem search_zero_invokes_searchFirst :
    OWEvent.searchFirst 0 ∈ (DS1820_Search busZero 0).2 ∧
    (DS1820_Search busZero 0).2 =
      [OWEvent.weakPullUp, OWEvent.searchFirst 0, OWEvent.reset] := by decide

/-- Claim C8 as amended: DS1820_Search with iMaxDevices = 0 returns count 0
with no addresses written, and its bus activity is exactly the weak
pull-up, a single OW_SearchFirst 0 invocation (whose result is discarded),
and the terminating bus reset; in particular no OW_SearchNext call and no
byte read occur. -/
theorem search_zero_returns_empty (bus : OneWireBus) :
    DS1820_Search bus 0 =
      ((0, []), [OWEvent.weakPullUp, OWEvent.searchFirst 0, OWEvent.reset]) ∧
    OWEvent.searchNext ∉ (DS1820_Search bus 0).2 := by
  have h : DS1820_Search bus 0 =
      ((0, []), [OWEvent.weakPullUp, OWEvent.searchFirst 0, OWEvent.reset]) := rfl
  exact ⟨h, by rw [h]; decide⟩

/-- A 0/1 flag in the C style is nonzero exactly when its condition holds. -/
theorem flag_ne_zero_iff (P : Prop) [Decidable P] : ((if P then 1 else 0 : Nat) ≠ 0 ↔ P) := by
  split <;> simp [*]

/-- Claim C5: ScratchPadRead reports failure exactly when the CRC-8 fold
(accumulator starting at 0, applied to bytes 0..7 in order, skipping the
CRC byte at position 8) differs from byte 8; and on such a mismatch both
DS1820_TemperatureGet and DS1820_TemperatureAlarmGet report an error and
return no scratchpad data (the alarm outputs keep the caller's values). -/
theorem scratchPadRead_crc_gate (bus : OneWireBus) (iAddress : Nat) (hi lo : Int) :
    ((ScratchPadRead bus.crcCalc bus.byteRead).1 ≠ 0 ↔
      List.foldl bus.crcCalc 0 [bus.byteRead 0, bus.byteRead 1, bus.byteRead 2,
        bus.byteRead 3, bus.byteRead 4, bus.byteRead 5, bus.byteRead 6, bus.byteRead 7]
        ≠ bus.byteRead 8) ∧
    ((ScratchPadRead bus.crcCalc bus.byteRead).1 ≠ 0 →
      DS1820_TemperatureGet bus iAddress = DS1820_TEMP_ERROR ∧
      DS1820_TemperatureAlarmGet bus iAddress hi lo = (DS1820_ERROR, hi, lo)) := by
  have hstep : (ScratchPadRead bus.crcCalc bus.byteRead).1 =
      if List.foldl bus.crcCalc 0 [bus.byteRead 0, bus.byteRead 1, bus.byteRead 2,
          bus.byteRead 3, bus.byteRead 4, bus.byteRead 5, bus.byteRead 6, bus.byteRead 7]
          ≠ bus.byteRead 8 then 1 else 0 := rfl
  constructor
  · rw [hstep]
    exact flag_ne_zero_iff _
  · intro hmm
    constructor
    · unfold DS1820_TemperatureGet
      by_cases hs : bus.romMatchFails iAddress = true
      · rw [if_pos hs]
      · rw [if_neg hs, if_pos hmm]
    · unfold DS1820_TemperatureAlarmGet
      by_cases hs : bus.romMatchFails iAddress = true
      · rw [if_pos hs]
      · rw [if_neg hs, if_pos hmm]

/-- Witness for C5 at the concrete bus busMismatch: the fold over bytes
0..7 gives 0 while byte 8 is 1, ScratchPadRead reports the mismatch, and
both callers return their error results with the alarm outputs unchanged. -/
theorem scratchPadRead_crc_gate_witness :
    (ScratchPadRead busMismatch.crcCalc busMismatch.byteRead).1 ≠ 0 ∧
    DS1820_TemperatureGet busMismatch 0 = DS1820_TEMP_ERROR ∧
    DS1820_TemperatureAlarmGet busMismatch 0 3 4 = (DS1820_ERROR, 3, 4) := by
  have h := scratchPadRead_crc_gate busMismatch 0 3 4
  have hm : (ScratchPadRead busMismatch.crcCalc busMismatch.byteRead).1 ≠ 0 :=
    h.1.mpr (by decide)
  exact ⟨hm, (h.2 hm).1, (h.2 hm).2⟩

/-- Claim C6: DS1820_TemperatureGet returns the same sentinel
DS1820_TEMP_ERROR both when device selection fails and when the scratchpad
CRC check fails, so the two failure causes are indistinguishable from the
returned value alone. -/
theorem temperatureGet_collapses_failures (bus : OneWireBus) (iAddress : Nat) :
    (bus.romMatchFails iAddress = true →
      DS1820_TemperatureGet bus iAddress = DS1820_TEMP_ERROR) ∧
    ((ScratchPadRead bus.crcCalc bus.byteRead).1 ≠ 0 →
      DS1820_TemperatureGet bus iAddress = DS1820_TEMP_ERROR) := by
  constructor
  · intro hs
    unfold DS1820_TemperatureGet
    rw [if_pos hs]
  · intro hc
    unfold DS1820_TemperatureGet
    by_cases hs : bus.romMatchFails iAddress = true
    · rw [if_pos hs]
    · rw [if_neg hs, if_pos hc]

/-- Witness for C6: a bus where selection fails and a bus where the CRC
check fails both make DS1820_TemperatureGet return DS1820_TEMP_ERROR. -/
theorem temperatureGet_collapses_failures_witness :
    DS1820_TemperatureGet busAbsent 0 = DS1820_TEMP_ERROR ∧
    DS1820_TemperatureGet busMismatch 0 = DS1820_TEMP_ERROR :=
  ⟨(temperatureGet_collapses_failures busAbsent 0).1 rfl,
   (temperatureGet_collapses_failures busMismatch 0).2 (by decide)⟩

/-- Nat.div is the division the / notation denotes on Nat. -/
theorem nat_div_eq_hdiv (a b : Nat) : Nat.div a b = a / b := rfl

/-- Any C int whose magnitude is at most 382750 cannot reach the sentinel
-10000 after the truncating division by 100. -/
theorem tdiv_hundred_ne_sentinel (t : Int) (ht : t.natAbs ≤ 382750) :
    Int.tdiv t 100 ≠ -10000 := by
  intro hEq
  have hfin := Int.natAbs_tdiv t 100
  rw [hEq] at hfin
  have e100 : ((100 : Int)).natAbs = 100 := rfl
  have e10000 : ((-10000 : Int)).natAbs = 10000 := rfl
  rw [e100, e10000, nat_div_eq_hdiv] at hfin
  omega

/-- The high-resolution correction quotient
(1000 * (byte7 - byte6)) tdiv byte7 has magnitude at most 255000. -/
theorem correction_tdiv_natAbs_le (b6 b7 : Nat) (h6 : b6 < 256) (h7 : b7 < 256) :
    (Int.tdiv (1000 * ((b7 : Int) - (b6 : Int))) (b7 : Int)).natAbs ≤ 255000 := by
  have hd : ((b7 : Int) - (b6 : Int)).natAbs ≤ 255 := by omega
  have h1000 : ((1000 : Int)).natAbs = 1000 := rfl
  rw [Int.natAbs_tdiv, Int.natAbs_mul, h1000, nat_div_eq_hdiv]
  have hdiv : 1000 * ((b7 : Int) - (b6 : Int)).natAbs / ((b7 : Int)).natAbs ≤
      1000 * ((b7 : Int) - (b6 : Int)).natAbs := Nat.div_le_self _ _
  omega

/-- Claim C9: for every 9-byte scratchpad with nonzero count-per-degree
byte, the value computed by the temperature decoding of
DS1820_TemperatureGet is never the sentinel DS1820_TEMP_ERROR = -10000:
the intermediate sum is bounded by 382750 in absolute value, so the final
truncating division by 100 stays within (-10000, 10000). -/
theorem temperatureDecode_never_sentinel (b0 b1 b2 b3 b4 b5 b6 b7 b8 : Nat)
    (h0 : b0 < 256) (h1 : b1 < 256) (h2 : b2 < 256) (h3 : b3 < 256) (h4 : b4 < 256)
    (h5 : b5 < 256) (h6 : b6 < 256) (h7 : b7 < 256) (h7z : b7 ≠ 0) (h8 : b8 < 256) :
    temperatureFromScratchpad [b0, b1, b2, b3, b4, b5, b6, b7, b8] ≠ DS1820_TEMP_ERROR := by
  have hval : temperatureFromScratchpad [b0, b1, b2, b3, b4, b5, b6, b7, b8] =
      Int.tdiv ((if b1 = 0 then (b0 : Int) * 500 else (b0 : Int) * (-500)) +
        (-250 + Int.tdiv (1000 * ((b7 : Int) - (b6 : Int))) (b7 : Int))) 100 := rfl
  rw [hval]
  unfold DS1820_TEMP_ERROR
  have hq := correction_tdiv_natAbs_le b6 b7 h6 h7
  by_cases hb1 : b1 = 0
  · rw [if_pos hb1]
    apply tdiv_hundred_ne_sentinel
    omega
  · rw [if_neg hb1]
    apply tdiv_hundred_ne_sentinel
    omega

/-- Witness for C9 at the data-sheet sample scratchpad. -/
theorem temperatureDecode_never_sentinel_witness :
    temperatureFromScratchpad [0x91, 1, 0x4B, 0x46, 0x7F, 0xFF, 0x0C, 0x10, 0]
      ≠ DS1820_TEMP_ERROR :=
  temperatureDecode_never_sentinel 0x91 1 0x4B 0x46 0x7F 0xFF 0x0C 0x10 0
    (by decide) (by decide) (by decide) (by decide) (by decide) (by decide)
    (by decide) (by decide) (by decide) (by decide)

/-- Claim C10: DS1820_TemperatureAlarmGet leaves the caller's threshold
variables unchanged and returns DS1820_ERROR on both error paths (device
selection failure and CRC mismatch), and when it returns DS1820_OK both
decoded outputs lie in [-127, 127]. -/
theorem alarmGet_error_paths_and_range (bus : OneWireBus) (iAddress : Nat) (hi lo : Int) :
    (bus.romMatchFails iAddress = true →
      DS1820_TemperatureAlarmGet bus iAddress hi lo = (DS1820_ERROR, hi, lo)) ∧
    ((ScratchPadRead bus.crcCalc bus.byteRead).1 ≠ 0 →
      DS1820_TemperatureAlarmGet bus iAddress hi lo = (DS1820_ERROR, hi, lo)) ∧
    ((DS1820_TemperatureAlarmGet bus iAddress hi lo).1 = DS1820_OK →
      -127 ≤ (DS1820_TemperatureAlarmGet bus iAddress hi lo).2.1 ∧
      (DS1820_TemperatureAlarmGet bus iAddress hi lo).2.1 ≤ 127 ∧
      -127 ≤ (DS1820_TemperatureAlarmGet bus iAddress hi lo).2.2 ∧
      (DS1820_TemperatureAlarmGet bus iAddress hi lo).2.2 ≤ 127) := by
  refine ⟨fun hs => ?_, fun hc => ?_, fun hok => ?_⟩
  · unfold DS1820_TemperatureAlarmGet
    rw [if_pos hs]
  · unfold DS1820_TemperatureAlarmGet
    by_cases hs : bus.romMatchFails iAddress = true
    · rw [if_pos hs]
    · rw [if_neg hs, if_pos hc]
  · by_cases hs : bus.romMatchFails iAddress = true
    · exfalso
      unfold DS1820_TemperatureAlarmGet at hok
      rw [if_pos hs] at hok
      simp [DS1820_ERROR, DS1820_OK] at hok
    · by_cases hc : (ScratchPadRead bus.crcCalc bus.byteRead).1 ≠ 0
      · exfalso
        unfold DS1820_TemperatureAlarmGet at hok
        rw [if_neg hs, if_pos hc] at hok
        simp [DS1820_ERROR, DS1820_OK] at hok
      · have hres : DS1820_TemperatureAlarmGet bus iAddress hi lo = (DS1820_OK,
            alarmDecode ((ScratchPadRead bus.crcCalc bus.byteRead).2.getD 3 0),
            alarmDecode ((ScratchPadRead bus.crcCalc bus.byteRead).2.getD 4 0)) := by
          unfold DS1820_TemperatureAlarmGet
          rw [if_neg hs, if_neg hc]
        rw [hres]
        exact ⟨(alarmDecode_mem_range _).1, (alarmDecode_mem_range _).2,
          (alarmDecode_mem_range _).1, (alarmDecode_mem_range _).2⟩

/-- Witness for C10: selection failure and CRC mismatch both leave the
caller's values 5 and 6 untouched, and on the successful bus the decoded
thresholds stay within [-127, 127]. -/
theorem alarmGet_error_paths_and_range_witness :
    DS1820_TemperatureAlarmGet busAbsent 0 5 6 = (DS1820_ERROR, 5, 6) ∧
    DS1820_TemperatureAlarmGet busMismatch 0 5 6 = (DS1820_ERROR, 5, 6) ∧
    (-127 ≤ (DS1820_TemperatureAlarmGet busPresent 0 5 6).2.1 ∧
      (DS1820_TemperatureAlarmGet busPresent 0 5 6).2.1 ≤ 127 ∧
      -127 ≤ (DS1820_TemperatureAlarmGet busPresent 0 5 6).2.2 ∧
      (DS1820_TemperatureAlarmGet busPresent 0 5 6).2.2 ≤ 127) :=
  ⟨(alarmGet_error_paths_and_range busAbsent 0 5 6).1 rfl,
   (alarmGet_error_paths_and_range busMismatch 0 5 6).2.1 (by decide),
   (alarmGet_error_paths_and_range busPresent 0 5 6).2.2 (by decide)⟩

end DS1820
